import Mathlib

/-! Shallow embedding of the checkout form component at
    src/live-coding/src/components/blocks/CheckoutForm/index.tsx, together with the
    creditcardutils helpers and the Joi string schema it instantiates. Strings are
    processed over their character lists so that every definition evaluates. -/

namespace CheckoutForm

/-- Converts a character list back to a string. -/
def ofChars (l : List Char) : String := String.mk l

/-- Prefix test on character lists, used for the card pattern match. -/
def isPrefixList : List Char → List Char → Bool
  | [], _ => true
  | _ :: _, [] => false
  | a :: as, b :: bs => a == b && isPrefixList as bs

/-- Digit test matching the JS regex that demands one or more digits and nothing
    else. -/
def allDigitsL (l : List Char) : Bool := !l.isEmpty && l.all Char.isDigit

/-- Card brand entry of the creditcardutils card table (a port of jquery.payment):
    prefix patterns, the allowed lengths, and whether the Luhn check applies. -/
structure Card where
  brand : String
  patterns : List String
  lengths : List Nat
  luhn : Bool
deriving DecidableEq

/-- Card table of creditcardutils in its order; the order decides which brand a
    prefix resolves to. -/
def cards : List Card := [
  ⟨"visaelectron", ["4026", "417500", "4405", "4508", "4844", "4913", "4917"], [16], true⟩,
  ⟨"maestro", ["5018", "502", "503", "506", "56", "58", "639", "6220", "67"],
    [12, 13, 14, 15, 16, 17, 18, 19], true⟩,
  ⟨"forbrugsforeningen", ["600"], [16], true⟩,
  ⟨"dankort", ["5019"], [16], true⟩,
  ⟨"visa", ["4"], [13, 16, 19], true⟩,
  ⟨"mastercard", ["51", "52", "53", "54", "55", "22", "23", "24", "25", "26", "27"],
    [16], true⟩,
  ⟨"amex", ["34", "37"], [15], true⟩,
  ⟨"dinersclub", ["30", "36", "38", "39"], [14], true⟩,
  ⟨"discover", ["60", "64", "65", "622"], [16], true⟩,
  ⟨"unionpay", ["62", "88"], [16, 17, 18, 19], false⟩,
  ⟨"jcb", ["35"], [16], true⟩]

/-- Embeds creditcardutils cardFromNumber: strips the non-digits and returns the
    first table entry one of whose patterns prefixes the number. -/
def cardFromNumberChars (raw : List Char) : Option Card :=
  let n := raw.filter Char.isDigit
  cards.find? (fun c => c.patterns.any (fun p => isPrefixList p.data n))

def cardFromNumber (num : String) : Option Card := cardFromNumberChars num.data

/-- Embeds creditcardutils parseCardType: null for an empty input, otherwise the
    brand of the matched table entry, if any. -/
def parseCardType (num : String) : Option String :=
  if num = "" then none else (cardFromNumber num).map Card.brand

/-- Luhn step: every second digit from the right is doubled, with nine subtracted
    when the double exceeds nine. -/
def luhnAddend (dbl : Bool) (d : Nat) : Nat :=
  if dbl then (if d * 2 > 9 then d * 2 - 9 else d * 2) else d

def luhnSum : List Nat → Bool → Nat
  | [], _ => 0
  | d :: ds, dbl => luhnAddend dbl d + luhnSum ds (!dbl)

/-- Embeds the creditcardutils Luhn check over a digit string. -/
def luhnCheckL (l : List Char) : Bool :=
  luhnSum ((l.map (fun c => c.toNat - 48)).reverse) false % 10 == 0

def luhnCheck (num : String) : Bool := luhnCheckL num.data

/-- Embeds creditcardutils validateCardNumber: whitespace and dashes are stripped,
    the rest must be digits, match a table entry, have one of its lengths and, when
    the entry demands it, pass the Luhn check. -/
def validateCardNumber (num : String) : Bool :=
  let n := num.data.filter (fun c => !(c.isWhitespace || c == '-'))
  allDigitsL n &&
    match cardFromNumberChars n with
    | none => false
    | some c => c.lengths.contains n.length && (!c.luhn || luhnCheckL n)

/-- Splits at every character satisfying the predicate, keeping empty pieces, as
    the JS split on a single-character class does. -/
def splitSingle (p : Char → Bool) : List Char → List (List Char)
  | [] => [[]]
  | x :: xs =>
      let r := splitSingle p xs
      if p x then [] :: r
      else
        match r with
        | [] => [[x]]
        | h :: t => (x :: h) :: t

/-- Splits at maximal runs of separator characters, as the JS split on a
    one-or-more character-class regex does: interior empty pieces vanish while a
    leading or trailing empty piece stays. -/
def jsSplitRuns (p : Char → Bool) (l : List Char) : List (List Char) :=
  match splitSingle p l with
  | [] => []
  | [t] => [t]
  | t :: rest => t :: ((rest.dropLast.filter (fun u => !u.isEmpty)) ++ rest.getLast?.toList)

/-- Embeds the JS parseInt in base ten on the non-negative inputs this component
    produces: leading whitespace is skipped, the leading digit run is read, and no
    digits at all give NaN, rendered here as none. -/
def jsParseIntL (l : List Char) : Option Nat :=
  let t := (l.dropWhile Char.isWhitespace).takeWhile Char.isDigit
  if t.isEmpty then none
  else some (t.foldl (fun a c => a * 10 + (c.toNat - 48)) 0)

/-- Current date at month precision, standing for the JS Date clock the expiry
    helpers read; the month is 1 to 12 and the year has four digits. -/
structure Now where
  year : Nat
  month : Nat
deriving DecidableEq

/-- Parsed expiry as creditcardutils returns it; none stands for NaN. -/
structure Expiry where
  month : Option Nat
  year : Option Nat
deriving DecidableEq

/-- Embeds creditcardutils parseCardExpiry: the value splits at whitespace-or-slash
    runs limited to two pieces, a two-digit year is prefixed with the current
    century, and both pieces go through parseInt. -/
def parseCardExpiry (now : Now) (value : String) : Expiry :=
  let parts := (jsSplitRuns (fun c => c.isWhitespace || c == '/') value.data).take 2
  let monthTok := parts.getD 0 []
  let yearTok := parts.getD 1 []
  let year :=
    if yearTok.length == 2 && yearTok.all Char.isDigit then
      (jsParseIntL yearTok).map (fun y => now.year / 100 * 100 + y)
    else jsParseIntL yearTok
  { month := jsParseIntL monthTok, year := year }

/-- Embeds creditcardutils validateCardExpiry on numeric inputs: NaN or zero fails,
    the month must be 1 to 12, the year must have four digits after the two-digit
    century fix, and the card is valid through the last instant of its expiry
    month, hence the comparison at month precision. -/
def validateCardExpiry (now : Now) (month year : Option Nat) : Bool :=
  match month, year with
  | some m, some y =>
      if m = 0 ∨ y = 0 then false
      else if m < 1 ∨ 12 < m then false
      else
        let y4 := if 10 ≤ y ∧ y ≤ 99 then (if y < 70 then 2000 + y else 1900 + y) else y
        if y4 < 1000 ∨ 9999 < y4 then false
        else decide (now.year * 12 + now.month ≤ y4 * 12 + m)
  | _, _ => false

/-- Chunks a digit list into the groups of four the default card format produces. -/
def chunksOfFour : List Char → List (List Char)
  | [] => []
  | c :: cs => (c :: cs.take 3) :: chunksOfFour (cs.drop 3)
termination_by l => l.length
decreasing_by
  simp [List.length_drop]
  omega

def joinSpace : List (List Char) → List Char
  | [] => []
  | [x] => x
  | x :: y :: t => x ++ ' ' :: joinSpace (y :: t)

/-- Embeds creditcardutils formatCardNumber: non-digits drop out, an unmatched
    number stays plain, a matched one is cut to the largest allowed length and
    spaced in groups of four, or four-six-five for amex and four-six-four for
    dinersclub, the two entries with a grouped format of their own. -/
def formatCardNumber (num : String) : String :=
  let n := num.data.filter Char.isDigit
  match cardFromNumberChars n with
  | none => ofChars n
  | some c =>
      let upper := c.lengths.getLastD 16
      let t := n.take upper
      if c.brand = "amex" then
        ofChars (joinSpace ([t.take 4, (t.drop 4).take 6, (t.drop 10).take 5].filter
          (fun u => !u.isEmpty)))
      else if c.brand = "dinersclub" then
        ofChars (joinSpace ([t.take 4, (t.drop 4).take 6, (t.drop 10).take 4].filter
          (fun u => !u.isEmpty)))
      else ofChars (joinSpace (chunksOfFour t))

/-- Embeds creditcardutils formatCardExpiry: up to two leading digits form the
    month, a following non-digit run the separator, up to four further digits the
    year, and the branches reproduce the slash insertion of the library. -/
def formatCardExpiry (value : String) : String :=
  let cs := value.data.dropWhile (fun c => !c.isDigit)
  if cs.isEmpty then ""
  else
    let monRun := cs.takeWhile Char.isDigit
    let mon := monRun.take 2
    let rest := cs.drop mon.length
    let sep := rest.takeWhile (fun c => !c.isDigit)
    let rest2 := rest.drop sep.length
    let year := (rest2.takeWhile Char.isDigit).take 4
    ofChars (
      if !year.isEmpty then mon ++ " / ".data ++ year
      else if sep = " /".data then mon.take 1
      else if mon.length == 2 || !sep.isEmpty then mon ++ " / ".data
      else if mon.length == 1 then
        (if mon ≠ ['0'] ∧ mon ≠ ['1'] then '0' :: mon ++ " / ".data else mon)
      else mon)

/-- Error codes the Joi schema of src lines 80-138 can produce on this data shape:
    string.base for a null value, string.empty for the empty string, and the
    rule-specific codes of the four fields. The any.required entries of the message
    maps never fire because the four keys are always present. -/
inductive JoiErr where
  | base
  | empty
  | emailBad
  | cardNumberBad
  | wrongCardType
  | wrongDate
  | lengthBad
deriving DecidableEq

/-- Special characters the unquoted local part of an email may contain. -/
def emailLocalSpecials : List Char :=
  ['!', '#', '$', '%', '&', '*', '+', '-', '/', '=', '?', '^', '_', '~', '|',
   Char.ofNat 39, Char.ofNat 96, Char.ofNat 123, Char.ofNat 125]

def isEmailLocalChar (c : Char) : Bool :=
  c.isAlphanum || emailLocalSpecials.contains c

def emailLocalOk (l : List Char) : Bool :=
  !l.isEmpty && decide (l.length ≤ 64) &&
    (splitSingle (fun c => c == '.') l).all
      (fun seg => !seg.isEmpty && seg.all isEmailLocalChar)

def domainSegOk (seg : List Char) : Bool :=
  !seg.isEmpty && decide (seg.length ≤ 63) &&
    seg.all (fun c => c.isAlphanum || c == '-') &&
    !(seg.getD 0 'a' == '-') && !(seg.getLastD 'a' == '-')

/-- Shape rule of the final domain segment: whatever the tld list options say, the
    tld label must begin with a letter. -/
def tldSegOk (seg : List Char) : Bool :=
  match seg with
  | [] => false
  | c :: _ => c.isAlpha

def emailDomainOk (d : List Char) : Bool :=
  let segs := splitSingle (fun c => c == '.') d
  decide (d.length ≤ 253) && decide (2 ≤ segs.length) && segs.all domainSegOk &&
    (match segs.getLast? with
     | none => false
     | some t => tldSegOk t)

/-- Embeds the ASCII unquoted fragment of the email syntax Joi applies with the
    configuration of src lines 82-84: the tld list check is off, while the default
    minimum of two domain segments, the letter-initial tld label and the
    254-character address limit still stand. -/
def joiIsEmail (s : String) : Bool :=
  decide (s.data.length ≤ 254) &&
    match splitSingle (fun c => c == '@') s.data with
    | [l, d] => emailLocalOk l && emailDomainOk d
    | _ => false

/-- Joi string pipeline of the email field (src lines 81-90): a null value fails
    the base string check, the empty string fails string.empty, any other string
    runs the email rule; the pair carries the error and the result value. -/
def emailCheck (v : Option String) : Option JoiErr × Option String :=
  match v with
  | none => (some .base, none)
  | some s =>
      if s = "" then (some .empty, some s)
      else if joiIsEmail s then (none, some s)
      else (some .emailBad, some s)

/-- Joi custom pipeline of the card_number field (src lines 91-113): a non-empty
    value must pass validateCardNumber and parse to mastercard or visa; the custom
    returns the value unchanged. -/
def cardNumberCheck (v : Option String) : Option JoiErr × Option String :=
  match v with
  | none => (some .base, none)
  | some s =>
      if s = "" then (some .empty, some s)
      else if validateCardNumber s = false then (some .cardNumberBad, some s)
      else if parseCardType s ≠ some "mastercard" ∧ parseCardType s ≠ some "visa" then
        (some .wrongCardType, some s)
      else (none, some s)

/-- Joi custom pipeline of the card_expire field (src lines 114-132): the parsed
    expiry must pass validateCardExpiry; on success the custom returns with no
    value, so the result value for the field becomes undefined, rendered none. -/
def cardExpireCheck (now : Now) (v : Option String) : Option JoiErr × Option String :=
  match v with
  | none => (some .base, none)
  | some s =>
      if s = "" then (some .empty, some s)
      else
        let e := parseCardExpiry now s
        if validateCardExpiry now e.month e.year then (none, none)
        else (some .wrongDate, some s)

/-- Joi pipeline of the cvv field (src line 133): a length rule of three. -/
def cvvCheck (v : Option String) : Option JoiErr × Option String :=
  match v with
  | none => (some .base, none)
  | some s =>
      if s = "" then (some .empty, some s)
      else if s.length == 3 then (none, some s)
      else (some .lengthBad, some s)

/-- Message table of the email field (src lines 86-90); string.base is not
    overridden there, so the Joi default text applies to it. -/
def emailMsg : JoiErr → String
  | .empty => "Required"
  | .emailBad => "Must be a valid email"
  | _ => "\"email\" must be a string"

/-- Message table of the card_number field (src lines 108-113). -/
def cardNumberMsg : JoiErr → String
  | .empty => "Required"
  | .cardNumberBad => "Must be a valid card"
  | .wrongCardType => "Wrong card number"
  | _ => "\"card_number\" must be a string"

/-- Message table of the card_expire field (src lines 128-132). -/
def cardExpireMsg : JoiErr → String
  | .empty => "Required"
  | .wrongDate => "Wrong date"
  | _ => "\"card_expire\" must be a string"

/-- Message table of the cvv field (src lines 133-137). -/
def cvvMsg : JoiErr → String
  | .empty => "Required"
  | .lengthBad => "Need 3 digits"
  | _ => "\"cvv\" must be a string"

/-- Per-field error message, as getErrors of src lines 141-148 surfaces it. -/
def emailError (v : Option String) : Option String := (emailCheck v).1.map emailMsg

def cardNumberError (v : Option String) : Option String :=
  (cardNumberCheck v).1.map cardNumberMsg

def cardExpireError (now : Now) (v : Option String) : Option String :=
  (cardExpireCheck now v).1.map cardExpireMsg

def cvvError (v : Option String) : Option String := (cvvCheck v).1.map cvvMsg

/-- Form state as held for useModels (src lines 42-47 and 62-67): four nullable
    strings. -/
structure FormValues where
  email : Option String
  card_number : Option String
  card_expire : Option String
  cvv : Option String
deriving DecidableEq

/-- Per-field error messages derived by the schema. -/
structure FormErrors where
  email : Option String
  card_number : Option String
  card_expire : Option String
  cvv : Option String
deriving DecidableEq

/-- Outcome of the Joi object schema: the transformed result value next to the
    per-field error messages. -/
structure JoiResult where
  value : FormValues
  errors : FormErrors
deriving DecidableEq

/-- Runs the Joi object schema of src lines 80-138 over the four fields. -/
def validateForm (now : Now) (d : FormValues) : JoiResult :=
  let e := emailCheck d.email
  let cn := cardNumberCheck d.card_number
  let ce := cardExpireCheck now d.card_expire
  let cv := cvvCheck d.cvv
  { value := ⟨e.2, cn.2, ce.2, cv.2⟩,
    errors := ⟨e.1.map emailMsg, cn.1.map cardNumberMsg,
               ce.1.map cardExpireMsg, cv.1.map cvvMsg⟩ }

def noErrors : FormErrors := ⟨none, none, none, none⟩

def hasAnyError (e : FormErrors) : Bool :=
  e.email.isSome || e.card_number.isSome || e.card_expire.isSome || e.cvv.isSome

/-- Modelled from the spec: the react-joi validation holder instantiated at src
    lines 78-139 is not part of this repository's sources. Spec section 2 has it
    hold the schema and "a derived result: per-field error messages and an
    aggregate valid/invalid flag", fed by the synchronization glue with the form
    values, and its control flow ends with "on submit, current values handed to a
    caller-supplied callback"; accordingly the state keeps the pushed data as-is
    while errors and the invalid flag are derived from it through the schema. -/
structure ValidatorState where
  data : FormValues
  errors : FormErrors
  auto_invalid : Bool
deriving DecidableEq

/-- Modelled from the spec: react-joi setData stores the given data and recomputes
    the derived result from the schema (spec sections 2 and 3). -/
def setData (now : Now) (d : FormValues) : ValidatorState :=
  let r := validateForm now d
  { data := d, errors := r.errors, auto_invalid := hasAnyError r.errors }

/-- Field names of the form. -/
inductive Field where
  | email
  | card_number
  | card_expire
  | cvv
deriving DecidableEq

/-- Modelled from the spec: react-use-models updateModel, the form state holder
    that "tracks raw field values ... keyed by field name" (spec section 2); the
    package itself is not in src/. -/
def updateModel (f : Field) (v : String) (m : FormValues) : FormValues :=
  match f with
  | .email => { m with email := some v }
  | .card_number => { m with card_number := some v }
  | .card_expire => { m with card_expire := some v }
  | .cvv => { m with cvv := some v }

/-- Combined component state: the models of the form hook next to the validator. -/
structure ComponentState where
  models : FormValues
  validator : ValidatorState
deriving DecidableEq

/-- Initial state of src lines 62-67: all four fields null. -/
def defaultState : FormValues := ⟨none, none, none, none⟩

def initialState (now : Now) : ComponentState :=
  ⟨defaultState, setData now defaultState⟩

/-- Change handlers of src lines 156-167 and 183-258: card number and expiry
    keystrokes run the creditcardutils formatter before the model update, the
    other two fields store the raw input. -/
def formatFor (f : Field) (raw : String) : String :=
  match f with
  | .card_number => formatCardNumber raw
  | .card_expire => formatCardExpiry raw
  | _ => raw

/-- One change event followed by the effect of src lines 169-172 that pushes the
    models into the validator. -/
def changeStep (now : Now) (st : ComponentState) (f : Field) (raw : String) :
    ComponentState :=
  let m := updateModel f (formatFor f raw) st.models
  { models := m, validator := setData now m }

/-- Submit handler of src lines 150-154: the default action is prevented and
    onSuccess receives the validator data; the list collects the calls made by one
    submit event. -/
def onSubmitCalls (st : ComponentState) : List FormValues :=
  [st.validator.data]

/-- Disabled prop of the submit button at src line 279. -/
def buttonDisabled (st : ComponentState) (loading : Bool) : Bool :=
  st.validator.auto_invalid || loading

/-- Follows the claim wording of a syntactically valid email "with any or no TLD":
    an atom local part and a domain of one or more label segments. Stated from the
    spec side, for comparison with joiIsEmail. -/
def specSyntacticEmail (s : String) : Bool :=
  match splitSingle (fun c => c == '@') s.data with
  | [l, d] =>
      emailLocalOk l &&
        (let segs := splitSingle (fun c => c == '.') d
         decide (d.length ≤ 253) && decide (1 ≤ segs.length) && segs.all domainSegOk)
  | _ => false

/-- Concrete clock used by the closed statements: October 2026. -/
def now26 : Now := ⟨2026, 10⟩

/-- Concrete form data on which all four fields pass the schema at now26. -/
def validData : FormValues :=
  ⟨some "john@example.com", some "4242 4242 4242 4242", some "12 / 30", some "123"⟩

/-- Empty in the sense of the never-touched null or the cleared empty string. -/
def isEmptyVal (v : Option String) : Prop := v = none ∨ v = some ""

/-- C1: a submit event in a synced state whose four fields all pass their
    validation rules calls onSuccess exactly once, and the argument is the current
    field values as held by the validator data. -/
theorem submit_valid_calls_once (now : Now) (st : ComponentState)
    (hsync : st.validator = setData now st.models)
    (_hvalid : (validateForm now st.models).errors = noErrors) :
    onSubmitCalls st = [st.models] := by
  simp [onSubmitCalls, hsync, setData]

theorem submit_valid_calls_once_witness :
    onSubmitCalls ⟨validData, setData now26 validData⟩ = [validData] :=
  submit_valid_calls_once now26 ⟨validData, setData now26 validData⟩ rfl (by decide)

/-- C2: while any of the four fields is empty, the submit button is disabled;
    field errors surface only per field and through the aggregate flag that feeds
    the button. -/
theorem empty_field_disables_submit (now : Now) (m : FormValues) (loading : Bool)
    (h : isEmptyVal m.email ∨ isEmptyVal m.card_number ∨
      isEmptyVal m.card_expire ∨ isEmptyVal m.cvv) :
    buttonDisabled ⟨m, setData now m⟩ loading = true := by
  rcases h with h | h | h | h <;> rcases h with h | h <;>
    simp [buttonDisabled, setData, validateForm, hasAnyError,
      emailCheck, cardNumberCheck, cardExpireCheck, cvvCheck, h]

theorem empty_field_disables_submit_witness :
    buttonDisabled ⟨defaultState, setData now26 defaultState⟩ false = true :=
  empty_field_disables_submit now26 defaultState false (Or.inl (Or.inl rfl))

/-- C10 as stated is false at a passing expiry: the Joi result value for
    card_expire is indeed none, yet the validator keeps the entered string in its
    data and hands exactly that to onSuccess. -/
theorem expiry_value_kept_not_undefined :
    (validateForm now26 validData).errors.card_expire = none ∧
    (validateForm now26 validData).value.card_expire = none ∧
    (setData now26 validData).data.card_expire = some "12 / 30" ∧
    onSubmitCalls ⟨validData, setData now26 validData⟩ = [validData] := by
  decide

/-- C10 amended: an expiry input that passes the check makes the custom validator
    return no value, so the Joi result value for card_expire is none; the
    validator data, however, is the pushed form values unchanged, so onSuccess
    receives the entered string. -/
theorem expiry_result_value_none (now : Now) (s : String)
    (h : (cardExpireCheck now (some s)).1 = none) :
    (cardExpireCheck now (some s)).2 = none ∧
    (∀ d : FormValues, (setData now d).data = d) := by
  refine ⟨?_, fun d => rfl⟩
  by_cases hs : s = ""
  · subst hs; simp [cardExpireCheck] at h
  · by_cases hv : validateCardExpiry now (parseCardExpiry now s).month
      (parseCardExpiry now s).year = true
    · simp [cardExpireCheck, hs, hv]
    · have hv2 : validateCardExpiry now (parseCardExpiry now s).month
        (parseCardExpiry now s).year = false := by
        revert hv
        cases validateCardExpiry now (parseCardExpiry now s).month
          (parseCardExpiry now s).year <;> simp
      simp [cardExpireCheck, hs, hv2] at h

theorem expiry_result_value_none_witness :
    (cardExpireCheck now26 (some "12 / 30")).2 = none ∧
    (setData now26 validData).data = validData :=
  ⟨(expiry_result_value_none now26 "12 / 30" (by decide)).1,
   (expiry_result_value_none now26 "12 / 30" (by decide)).2 validData⟩

/-- C3 as stated is false: "abc" contains no digit yet passes the cvv validation,
    since the schema only checks the length. -/
theorem cvv_three_letters_passes :
    cvvError (some "abc") = none ∧ "abc".data.all Char.isDigit = false := by
  decide

/-- C3 amended: cvv validation passes exactly the strings of three characters,
    digits or not; a non-empty string of any other length carries "Need 3 digits",
    while the empty string carries "Required" instead. -/
theorem cvv_length_rule (s : String) :
    (cvvError (some s) = none ↔ s.length = 3) ∧
    (s ≠ "" → s.length ≠ 3 → cvvError (some s) = some "Need 3 digits") := by
  by_cases hs : s = ""
  · subst hs; exact ⟨by decide, fun h _ => absurd rfl h⟩
  · by_cases hl : s.length = 3
    · exact ⟨by simp [cvvError, cvvCheck, hs, hl], fun _ h3 => absurd hl h3⟩
    · refine ⟨by simp [cvvError, cvvCheck, hs, hl], fun _ _ => ?_⟩
      simp [cvvError, cvvCheck, hs, hl, cvvMsg]

theorem cvv_length_rule_witness :
    cvvError (some "12") = some "Need 3 digits" :=
  (cvv_length_rule "12").2 (by decide) (by decide)

/-- C4: a non-empty card number on which validateCardNumber fails carries the
    invalid-card message, whatever brand would parse. -/
theorem luhn_invalid_card_message (s : String) (hne : s ≠ "")
    (h : validateCardNumber s = false) :
    cardNumberError (some s) = some "Must be a valid card" := by
  simp [cardNumberError, cardNumberCheck, hne, h, cardNumberMsg]

theorem luhn_invalid_card_message_witness :
    cardNumberError (some "1234") = some "Must be a valid card" :=
  luhn_invalid_card_message "1234" (by decide) (by decide)

/-- C5: a non-empty card number passing validateCardNumber whose parsed type is
    neither mastercard nor visa carries the wrong-brand message. -/
theorem luhn_valid_wrong_brand_message (s : String) (hne : s ≠ "")
    (h : validateCardNumber s = true)
    (hm : parseCardType s ≠ some "mastercard")
    (hv : parseCardType s ≠ some "visa") :
    cardNumberError (some s) = some "Wrong card number" := by
  simp [cardNumberError, cardNumberCheck, hne, h, hm, hv, cardNumberMsg]

theorem luhn_valid_wrong_brand_message_witness :
    cardNumberError (some "378282246310005") = some "Wrong card number" :=
  luhn_valid_wrong_brand_message "378282246310005" (by decide) (by decide)
    (by decide) (by decide)

/-- C6: for a non-empty expiry input, a failing validateCardExpiry on the parsed
    month and year yields the wrong-date message, and a passing one leaves the
    field without error. -/
theorem expiry_check_rule (now : Now) (s : String) (hne : s ≠ "") :
    (validateCardExpiry now (parseCardExpiry now s).month
        (parseCardExpiry now s).year = false →
      cardExpireError now (some s) = some "Wrong date") ∧
    (validateCardExpiry now (parseCardExpiry now s).month
        (parseCardExpiry now s).year = true →
      cardExpireError now (some s) = none) := by
  constructor
  · intro h; simp [cardExpireError, cardExpireCheck, hne, h, cardExpireMsg]
  · intro h; simp [cardExpireError, cardExpireCheck, hne, h]

theorem expiry_check_rule_witness :
    cardExpireError now26 (some "12 / 20") = some "Wrong date" ∧
    cardExpireError now26 (some "12 / 30") = none :=
  ⟨(expiry_check_rule now26 "12 / 20" (by decide)).1 (by decide),
   (expiry_check_rule now26 "12 / 30" (by decide)).2 (by decide)⟩

/-- C7 as stated is false: "john@example" is a syntactically valid email without a
    TLD, yet the schema rejects it with the email-format message, since the email
    rule still demands at least two domain segments. -/
theorem email_no_tld_rejected :
    specSyntacticEmail "john@example" = true ∧
    emailError (some "john@example") = some "Must be a valid email" := by
  decide

/-- C7 amended: a non-empty email passes exactly when it meets the applied email
    syntax, which leaves the TLD value unchecked but requires at least two domain
    segments; any other non-empty string carries the email-format message. -/
theorem email_rule (s : String) (hne : s ≠ "") :
    (emailError (some s) = none ↔ joiIsEmail s = true) ∧
    (joiIsEmail s = false → emailError (some s) = some "Must be a valid email") := by
  by_cases h : joiIsEmail s = true
  · refine ⟨by simp [emailError, emailCheck, hne, h], fun hf => ?_⟩
    rw [h] at hf; exact Bool.noConfusion hf
  · have hb : joiIsEmail s = false := by
      revert h; cases joiIsEmail s <;> simp
    exact ⟨by simp [emailError, emailCheck, hne, hb],
      fun _ => by simp [emailError, emailCheck, hne, hb, emailMsg]⟩

theorem email_rule_witness :
    emailError (some "john@example.com") = none :=
  ((email_rule "john@example.com" (by decide)).1).mpr (by decide)

/-- C8: after any change step, the validator data equals the current models and
    the derived errors are recomputed from them through the schema. -/
theorem change_syncs_validator (now : Now) (st : ComponentState) (f : Field)
    (raw : String) :
    (changeStep now st f raw).validator.data = (changeStep now st f raw).models ∧
    (changeStep now st f raw).validator.errors =
      (validateForm now (changeStep now st f raw).models).errors := by
  exact ⟨rfl, rfl⟩

/-- C9: the submit handler calls onSuccess once with the validator data for every
    state, valid or not; the only guard is the button's disabled flag, which is
    exactly the aggregate invalid flag or the loading prop. -/
theorem submit_unconditional (now : Now) (m : FormValues) (loading : Bool) :
    onSubmitCalls ⟨m, setData now m⟩ = [m] ∧
    buttonDisabled ⟨m, setData now m⟩ loading =
      (hasAnyError (validateForm now m).errors || loading) := by
  exact ⟨rfl, rfl⟩

end CheckoutForm

